import Mathlib

/-!
# libratbag: the hidraw transport layer and the HID++ envelope constants

A shallow embedding of `src/hidpp-constants.h` and `src/libratbag-hidraw.h`.

* The constants of `hidpp-constants.h` are transcribed one `#define` per
  definition, with the names of the header.
* `struct ratbag_hidraw` is transcribed field by field.
* The functions that `libratbag-hidraw.h` only declares are modelled from the
  specification; each such definition says so in its doc comment.
-/

namespace Ratbag

/-! ## `hidpp-constants.h` -/

/-- Header line `#define HIDPP_RECEIVER_IDX 0xFF` -/
def HIDPP_RECEIVER_IDX : Nat := 0xFF
/-- Header line `#define HIDPP_WIRED_DEVICE_IDX 0x00` -/
def HIDPP_WIRED_DEVICE_IDX : Nat := 0x00

/-- Header line `#define HIDPP_REPORT_ID_SHORT 0x10` -/
def HIDPP_REPORT_ID_SHORT : Nat := 0x10
/-- Header line `#define HIDPP_REPORT_ID_LONG 0x11` -/
def HIDPP_REPORT_ID_LONG : Nat := 0x11

/-- Header line `#define HIDPP_SHORT_MESSAGE_LENGTH 7` -/
def HIDPP_SHORT_MESSAGE_LENGTH : Nat := 7
/-- Header line `#define HIDPP_LONG_MESSAGE_LENGTH 20` -/
def HIDPP_LONG_MESSAGE_LENGTH : Nat := 20

/-- Header line `#define HIDPP_SET_REGISTER_REQ 0x80` -/
def HIDPP_SET_REGISTER_REQ : Nat := 0x80
/-- Header line `#define HIDPP_SET_REGISTER_RSP 0x80` -/
def HIDPP_SET_REGISTER_RSP : Nat := 0x80
/-- Header line `#define HIDPP_GET_REGISTER_REQ 0x81` -/
def HIDPP_GET_REGISTER_REQ : Nat := 0x81
/-- Header line `#define HIDPP_GET_REGISTER_RSP 0x81` -/
def HIDPP_GET_REGISTER_RSP : Nat := 0x81
/-- Header line `#define HIDPP_SET_LONG_REGISTER_REQ 0x82` -/
def HIDPP_SET_LONG_REGISTER_REQ : Nat := 0x82
/-- Header line `#define HIDPP_SET_LONG_REGISTER_RSP 0x82` -/
def HIDPP_SET_LONG_REGISTER_RSP : Nat := 0x82
/-- Header line `#define HIDPP_GET_LONG_REGISTER_REQ 0x83` -/
def HIDPP_GET_LONG_REGISTER_REQ : Nat := 0x83
/-- Header line `#define HIDPP_GET_LONG_REGISTER_RSP 0x83` -/
def HIDPP_GET_LONG_REGISTER_RSP : Nat := 0x83
/-- Header line `#define HIDPP_ERROR_MSG 0x8F` -/
def HIDPP_ERROR_MSG : Nat := 0x8F

/-- Header line `#define HIDPP_ERR_SUCCESS 0x00` -/
def HIDPP_ERR_SUCCESS : Nat := 0x00
/-- Header line `#define HIDPP_ERR_INVALID_SUBID 0x01` -/
def HIDPP_ERR_INVALID_SUBID : Nat := 0x01
/-- Header line `#define HIDPP_ERR_INVALID_ADDRESS 0x02` -/
def HIDPP_ERR_INVALID_ADDRESS : Nat := 0x02
/-- Header line `#define HIDPP_ERR_INVALID_VALUE 0x03` -/
def HIDPP_ERR_INVALID_VALUE : Nat := 0x03
/-- Header line `#define HIDPP_ERR_CONNECT_FAIL 0x04` -/
def HIDPP_ERR_CONNECT_FAIL : Nat := 0x04
/-- Header line `#define HIDPP_ERR_TOO_MANY_DEVICES 0x05` -/
def HIDPP_ERR_TOO_MANY_DEVICES : Nat := 0x05
/-- Header line `#define HIDPP_ERR_ALREADY_EXISTS 0x06` -/
def HIDPP_ERR_ALREADY_EXISTS : Nat := 0x06
/-- Header line `#define HIDPP_ERR_BUSY 0x07` -/
def HIDPP_ERR_BUSY : Nat := 0x07
/-- Header line `#define HIDPP_ERR_UNKNOWN_DEVICE 0x08` -/
def HIDPP_ERR_UNKNOWN_DEVICE : Nat := 0x08
/-- Header line `#define HIDPP_ERR_RESOURCE_ERROR 0x09` -/
def HIDPP_ERR_RESOURCE_ERROR : Nat := 0x09
/-- Header line `#define HIDPP_ERR_REQUEST_UNAVAILABLE 0x0A` -/
def HIDPP_ERR_REQUEST_UNAVAILABLE : Nat := 0x0A
/-- Header line `#define HIDPP_ERR_INVALID_PARAM_VALUE 0x0B` -/
def HIDPP_ERR_INVALID_PARAM_VALUE : Nat := 0x0B
/-- Header line `#define HIDPP_ERR_WRONG_PIN_CODE 0x0C` -/
def HIDPP_ERR_WRONG_PIN_CODE : Nat := 0x0C

/-! ### Reading the constants as an envelope codec -/

/-- The names of the thirteen `HIDPP_ERR_*` constants, in the order of the
header (which is also the order in which the specification lists them). -/
inductive HidppErr where
  | success
  | invalidSubId
  | invalidAddress
  | invalidValue
  | connectFail
  | tooManyDevices
  | alreadyExists
  | busy
  | unknownDevice
  | resourceError
  | requestUnavailable
  | invalidParamValue
  | wrongPinCode
  deriving DecidableEq, Repr

/-- The wire value the header gives to each named code. -/
def HidppErr.code : HidppErr → Nat
  | .success => HIDPP_ERR_SUCCESS
  | .invalidSubId => HIDPP_ERR_INVALID_SUBID
  | .invalidAddress => HIDPP_ERR_INVALID_ADDRESS
  | .invalidValue => HIDPP_ERR_INVALID_VALUE
  | .connectFail => HIDPP_ERR_CONNECT_FAIL
  | .tooManyDevices => HIDPP_ERR_TOO_MANY_DEVICES
  | .alreadyExists => HIDPP_ERR_ALREADY_EXISTS
  | .busy => HIDPP_ERR_BUSY
  | .unknownDevice => HIDPP_ERR_UNKNOWN_DEVICE
  | .resourceError => HIDPP_ERR_RESOURCE_ERROR
  | .requestUnavailable => HIDPP_ERR_REQUEST_UNAVAILABLE
  | .invalidParamValue => HIDPP_ERR_INVALID_PARAM_VALUE
  | .wrongPinCode => HIDPP_ERR_WRONG_PIN_CODE

/-- All named codes, in header order. -/
def HidppErr.all : List HidppErr :=
  [.success, .invalidSubId, .invalidAddress, .invalidValue, .connectFail,
   .tooManyDevices, .alreadyExists, .busy, .unknownDevice, .resourceError,
   .requestUnavailable, .invalidParamValue, .wrongPinCode]

/-- The named codes that are errors: every name but `success`. -/
def HidppErr.errors : List HidppErr :=
  HidppErr.all.filter (fun e => decide (e ≠ .success))

/-- Decoding of an error-code byte: the first named code (in header order)
whose constant equals the byte, if there is one. -/
def hidppErrOfByte (b : Nat) : Option HidppErr :=
  HidppErr.all.find? (fun e => decide (e.code = b))

/-- Frame length selected by a report id, from the two `HIDPP_REPORT_ID_*`
and the two `HIDPP_*_MESSAGE_LENGTH` constants. -/
def hidppMessageLength (reportId : Nat) : Option Nat :=
  if reportId = HIDPP_REPORT_ID_SHORT then some HIDPP_SHORT_MESSAGE_LENGTH
  else if reportId = HIDPP_REPORT_ID_LONG then some HIDPP_LONG_MESSAGE_LENGTH
  else none

/-- The fields every frame starts with, as the specification names them. -/
inductive HeaderField where
  | reportId
  | deviceIndex
  | subId
  | address
  deriving DecidableEq, Repr

/-- The wire format as the specification words it: a report id, the header
fields, and a number of parameter bytes. -/
structure SpecFrameFormat where
  reportId : Nat
  header : List HeaderField
  paramBytes : Nat
  deriving DecidableEq, Repr

/-- Specification, short frame:
`[reportId=0x10][deviceIndex][subId][address][p0][p1][p2]`. -/
def specShortFrame : SpecFrameFormat :=
  { reportId := 0x10, header := [.reportId, .deviceIndex, .subId, .address], paramBytes := 3 }

/-- Specification, long frame:
`[reportId=0x11][deviceIndex][subId][address][p0..p15]`. -/
def specLongFrame : SpecFrameFormat :=
  { reportId := 0x11, header := [.reportId, .deviceIndex, .subId, .address], paramBytes := 16 }

/-- Total number of bytes of a frame in the specification's wire format. -/
def SpecFrameFormat.totalBytes (f : SpecFrameFormat) : Nat :=
  f.header.length + f.paramBytes

/-- The sub-id byte marks an error frame. -/
def isErrorSubId (subId : Nat) : Bool :=
  decide (subId = HIDPP_ERROR_MSG)

/-- The register request opcodes of the header. -/
def registerRequestOpcodes : List Nat :=
  [HIDPP_SET_REGISTER_REQ, HIDPP_GET_REGISTER_REQ,
   HIDPP_SET_LONG_REGISTER_REQ, HIDPP_GET_LONG_REGISTER_REQ]

/-- The register response opcodes of the header. -/
def registerResponseOpcodes : List Nat :=
  [HIDPP_SET_REGISTER_RSP, HIDPP_GET_REGISTER_RSP,
   HIDPP_SET_LONG_REGISTER_RSP, HIDPP_GET_LONG_REGISTER_RSP]

/-- The sub-id byte is one of the register response opcodes. -/
def isRegisterResponseSubId (subId : Nat) : Bool :=
  decide (subId ∈ registerResponseOpcodes)

/-- A frame is a list of bytes. -/
abbrev Frame := List Nat

/-- Every element of the frame fits in a byte. -/
def Frame.isBytes (f : Frame) : Bool :=
  f.all (fun b => decide (b < 256))

/-- A short frame: seven bytes, the first being `HIDPP_REPORT_ID_SHORT`. -/
def Frame.isShort (f : Frame) : Bool :=
  f.isBytes && decide (f.length = HIDPP_SHORT_MESSAGE_LENGTH)
    && decide (f[0]? = some HIDPP_REPORT_ID_SHORT)

/-- Classification of a frame as an error frame, by its sub-id byte (byte 2). -/
def Frame.isError (f : Frame) : Bool :=
  match f[2]? with
  | some subId => isErrorSubId subId
  | none => false

/-- Classification of a frame as a register response, by its sub-id byte. -/
def Frame.isRegisterResponse (f : Frame) : Bool :=
  match f[2]? with
  | some subId => isRegisterResponseSubId subId
  | none => false

/-! ## `libratbag-hidraw.h` -/

/-- Header line `#define HID_INPUT_REPORT 0` -/
def HID_INPUT_REPORT : Nat := 0
/-- Header line `#define HID_OUTPUT_REPORT 1` -/
def HID_OUTPUT_REPORT : Nat := 1
/-- Header line `#define HID_FEATURE_REPORT 2` -/
def HID_FEATURE_REPORT : Nat := 2

/-- The record `struct ratbag_hidraw`, field by field: `report_ids` is the
array the pointer refers to, `events_thread` a thread id, and each of the two
mutexes is the flag "held". -/
structure ratbag_hidraw where
  fd : Int
  report_ids : List Nat
  num_report_ids : Nat
  events_thread : Nat
  use_thread : Int
  lock : Bool
  grab_lock : Bool
  pipe_fds : Int × Int
  deriving DecidableEq, Repr

/-- Event Loop State of the specification:
`NotStarted → Running → StopRequested → Stopped`. -/
inductive EventLoopState where
  | notStarted
  | running
  | stopRequested
  | stopped
  deriving DecidableEq, Repr

/-- Modelled from the spec: `struct ratbag_device` is declared in `libratbag.h`,
which is not among the sources. The fields are what the specification's Device
Session holds besides the hidraw record: whether a driver `raw_event` callback
is bound, the callback invocations made so far (bytes and length, oldest
first), the event-loop state, and the worker execution contexts that exist
(thread ids, newest first). -/
structure ratbag_device where
  hidraw : ratbag_hidraw
  raw_event_bound : Bool
  raw_event_calls : List (Frame × Nat)
  loop : EventLoopState
  workers : List Nat
  deriving DecidableEq, Repr

/-! ### Report registry -/

/-- Modelled from the spec: the loop of `ratbag_hidraw_has_report`, whose body is
not among the sources. The scan of
`report_ids[i], report_ids[i+1], ..., report_ids[num_report_ids-1]` for `report_id`: `1` at the first match, `0` when the scan reaches
`num_report_ids`. -/
def has_report_scan (ids : List Nat) (n report_id : Nat) (i : Nat) : Int :=
  if i < n then
    if ids[i]? = some report_id then 1
    else has_report_scan ids n report_id (i + 1)
  else 0
termination_by n - i

/-- Modelled from the spec: the body of `ratbag_hidraw_has_report` is not among
the sources, only its declaration ("return 1 if the device has the given
report id, 0 otherwise"). Specification: a membership test against the
registry captured at open, linear in the registry size. The session is
returned next to the answer, so that what the query does to it is explicit. -/
def ratbag_hidraw_has_report (device : ratbag_device) (report_id : Nat) :
    Int × ratbag_device :=
  (has_report_scan device.hidraw.report_ids device.hidraw.num_report_ids report_id 0, device)

/-- The registry captured at open: the first `num_report_ids` entries of
`report_ids`. -/
def ratbag_hidraw.registry (h : ratbag_hidraw) : List Nat :=
  h.report_ids.take h.num_report_ids

/-! ### Report propagation and input reports -/

/-- Tagged outcomes of the specification's error taxonomy. -/
inductive HidrawError where
  | transportError
  | protocolError (failedSubId : Nat) (code : Nat)
  | alreadyStarted
  | stopPending
  | noCallbackBound
  | cancelled
  deriving DecidableEq, Repr

/-- Modelled from the spec: the body of `ratbag_hidraw_propagate_report` is not
among the sources. Specification: pure dispatch of the raw bytes to the driver
callback bound to the session, no I/O; `NoCallbackBound` if nothing is
registered. A dispatch appends one entry to `raw_event_calls`. -/
def ratbag_hidraw_propagate_report (device : ratbag_device) (buf : Frame) (len : Nat) :
    Except HidrawError Unit × ratbag_device :=
  if device.raw_event_bound then
    (.ok (), { device with raw_event_calls := device.raw_event_calls ++ [(buf.take len, len)] })
  else
    (.error .noCallbackBound, device)

/-- What one blocking read of the raw communication primitive delivers: a
frame, an I/O failure, or the interruption of the wait by a concurrent stop. -/
inductive ReadEvent where
  | report (bytes : Frame)
  | ioFailure
  | interrupted
  deriving DecidableEq, Repr

/-- Modelled from the spec: the body of `ratbag_hidraw_read_input_report` is not
among the sources. Specification: one blocking read of a single input report
into a buffer of `len` bytes; if `propagate` is set, the same bytes are also
dispatched to the driver callback through `ratbag_hidraw_propagate_report`,
whose `NoCallbackBound` is not fatal to the read; `Cancelled` if a concurrent
stop interrupts the wait, `TransportError` on an I/O failure. The result is
the count with the bytes read, or the error. -/
def ratbag_hidraw_read_input_report (device : ratbag_device) (incoming : ReadEvent)
    (len : Nat) (propagate : Int) : Except HidrawError (Nat × Frame) × ratbag_device :=
  match incoming with
  | .ioFailure => (.error .transportError, device)
  | .interrupted => (.error .cancelled, device)
  | .report bytes =>
    let buf := bytes.take len
    let rc := buf.length
    if propagate ≠ 0 then
      (.ok (rc, buf), (ratbag_hidraw_propagate_report device buf rc).2)
    else
      (.ok (rc, buf), device)

/-- The callback invocations a call added to the session's record. -/
def newCalls (before after : ratbag_device) : List (Frame × Nat) :=
  after.raw_event_calls.drop before.raw_event_calls.length

/-! ### Raw request -/

/-- What the OS-level request primitive delivers: the buffer as transferred
(its length is the transferred byte count), or a failure. -/
inductive RequestEvent where
  | transferred (buf : Frame)
  | ioFailure
  deriving DecidableEq, Repr

/-- Recognition of an error frame in a transferred buffer, by the wire format
`[0x10][deviceIndex][0x8F][failedSubId][errorCode]`: report id
`HIDPP_REPORT_ID_SHORT`, sub-id `HIDPP_ERROR_MSG`, returning the failed sub-id
(byte 3) and the error code (byte 4). -/
def errorFrameFields (buf : Frame) : Option (Nat × Nat) :=
  match buf with
  | reportId :: _ :: subId :: failedSubId :: code :: _ =>
    if reportId = HIDPP_REPORT_ID_SHORT ∧ subId = HIDPP_ERROR_MSG then
      some (failedSubId, code)
    else none
  | _ => none

set_option linter.unusedVariables false in
/-- Modelled from the spec: the body of `ratbag_hidraw_raw_request` is not among
the sources, only its declaration. Specification: one synchronous get/set
exchange; acquires the Transaction Lock, performs the OS-level request
primitive, releases the lock on every exit path; the transferred byte count on
success, `TransportError` (handle closed, I/O failure) or `ProtocolError`
(the device returned an error frame) distinctly. -/
def ratbag_hidraw_raw_request (device : ratbag_device) (reportnum : Nat) (len : Nat)
    (rtype : Nat) (reqtype : Int) (exchange : RequestEvent) :
    Except HidrawError (Nat × Frame) × ratbag_device :=
  let locked := { device with hidraw := { device.hidraw with lock := true } }
  let released := { locked with hidraw := { locked.hidraw with lock := false } }
  if device.hidraw.fd < 0 then
    (.error .transportError, released)
  else
    match exchange with
    | .ioFailure => (.error .transportError, released)
    | .transferred buf =>
      let out := buf.take len
      match errorFrameFields out with
      | some (failedSubId, code) => (.error (.protocolError failedSubId code), released)
      | none => (.ok (out.length, out), released)

/-! ### Event loop -/

/-- Errno numbers of the two ways `start` can fail. The header promises a
negative errno and does not say which; they are parameters. -/
structure StartErrnos where
  alreadyStarted : Nat
  stopPending : Nat
  deriving DecidableEq, Repr

/-- Errno numbers are positive. -/
def StartErrnos.positive (e : StartErrnos) : Prop :=
  0 < e.alreadyStarted ∧ 0 < e.stopPending

instance (e : StartErrnos) : Decidable e.positive := by
  unfold StartErrnos.positive; infer_instance

/-- Modelled from the spec: the body of `ratbag_hidraw_start_events` is not among
the sources. Specification: `start` is only valid from `NotStarted`/`Stopped`;
it transitions to `Running`, spawning a worker (thread id `tid`); `start` while
`Running` fails with `AlreadyStarted`. -/
def startEvents (device : ratbag_device) (tid : Nat) :
    Except HidrawError Unit × ratbag_device :=
  match device.loop with
  | .notStarted | .stopped =>
    (.ok (), { device with
                hidraw := { device.hidraw with events_thread := tid }
                loop := .running
                workers := tid :: device.workers })
  | .running => (.error .alreadyStarted, device)
  | .stopRequested => (.error .stopPending, device)

/-- The return value of `ratbag_hidraw_start_events`: "0 or a negative errno on
error". -/
def startReturnCode (errnos : StartErrnos) : Except HidrawError Unit → Int
  | .ok () => 0
  | .error .alreadyStarted => -(errnos.alreadyStarted : Int)
  | .error _ => -(errnos.stopPending : Int)

/-- Modelled from the spec: `ratbag_hidraw_start_events` with its C return
value, see `startEvents`. -/
def ratbag_hidraw_start_events (errnos : StartErrnos) (device : ratbag_device) (tid : Nat) :
    Int × ratbag_device :=
  (startReturnCode errnos (startEvents device tid).1, (startEvents device tid).2)

/-- Modelled from the spec: the first half of `stop`, signalling the cancellation
channel: `Running → StopRequested`; nothing to signal in the other states. -/
def signalStop (device : ratbag_device) : ratbag_device :=
  match device.loop with
  | .running => { device with loop := .stopRequested }
  | _ => device

/-- Modelled from the spec: the worker, woken by the cancellation channel, exits
and the loop becomes `Stopped`: `StopRequested → Stopped`, the worker's
execution context is gone. -/
def workerExit (device : ratbag_device) : ratbag_device :=
  match device.loop with
  | .stopRequested => { device with loop := .stopped, workers := device.workers.tail }
  | _ => device

/-- Modelled from the spec: the body of `ratbag_hidraw_stop_events` is not among
the sources. Specification: `stop` signals the cancellation channel and blocks
the caller until the worker has exited, then the state is `Stopped`; a no-op
when already `Stopped`/`NotStarted`. -/
def ratbag_hidraw_stop_events (device : ratbag_device) : ratbag_device :=
  workerExit (signalStop device)

/-- What can happen to the event loop of a session. -/
inductive LoopEvent where
  | start (tid : Nat)
  | stop
  | signal
  | exit
  deriving DecidableEq, Repr

/-- One event applied to a session. -/
def loopStep (errnos : StartErrnos) (device : ratbag_device) : LoopEvent → ratbag_device
  | .start tid => (ratbag_hidraw_start_events errnos device tid).2
  | .stop => ratbag_hidraw_stop_events device
  | .signal => signalStop device
  | .exit => workerExit device

/-- A sequence of events applied to a session, in order. -/
def loopRun (errnos : StartErrnos) (device : ratbag_device) (events : List LoopEvent) :
    ratbag_device :=
  events.foldl (loopStep errnos) device

/-- Modelled from the spec: what `ratbag_open_hidraw` leaves on success (its body
is not among the sources): the handle, the registry enumerated from the report
descriptor, both locks free, the event loop not started, no worker. -/
def openedSession (fd : Int) (ids : List Nat) (bound : Bool) (pipe : Int × Int) :
    ratbag_device :=
  { hidraw := { fd := fd, report_ids := ids, num_report_ids := ids.length,
                events_thread := 0, use_thread := 0, lock := false, grab_lock := false,
                pipe_fds := pipe }
    raw_event_bound := bound
    raw_event_calls := []
    loop := .notStarted
    workers := [] }

/-- The error frame of the specification's test, padded to seven bytes. -/
def exampleErrorFrame : Frame := [0x10, 0x00, 0x8F, 0x04, 0x0B, 0, 0]

/-- The relation between the event-loop state and the worker execution contexts:
one worker while `Running` or `StopRequested`, none while `NotStarted` or
`Stopped`. -/
def loopInvariant (device : ratbag_device) : Prop :=
  match device.loop with
  | .running | .stopRequested => device.workers.length = 1
  | .notStarted | .stopped => device.workers = []

/-! ## Lemmas -/

/-- The scan from index `i` either answers 1 and some index in `[i, n)` holds
the id, or answers 0 and no index in `[i, n)` holds it. -/
theorem has_report_scan_cases (ids : List Nat) (n report_id : Nat) :
    ∀ k i, n - i = k →
      (has_report_scan ids n report_id i = 1
          ∧ ∃ j, i ≤ j ∧ j < n ∧ ids[j]? = some report_id)
      ∨ (has_report_scan ids n report_id i = 0
          ∧ ∀ j, i ≤ j → j < n → ids[j]? ≠ some report_id) := by
  intro k
  induction k with
  | zero =>
    intro i hk
    right
    have hi : ¬ i < n := by omega
    refine ⟨by rw [has_report_scan]; simp [hi], ?_⟩
    intro j hij hjn
    omega
  | succ k ih =>
    intro i hk
    have hi : i < n := by omega
    by_cases hm : ids[i]? = some report_id
    · left
      exact ⟨by rw [has_report_scan]; simp [hi, hm], i, le_refl i, hi, hm⟩
    · have hstep : has_report_scan ids n report_id i
          = has_report_scan ids n report_id (i + 1) := by
        rw [has_report_scan]; simp [hi, hm]
      rcases ih (i + 1) (by omega) with ⟨h1, j, hj1, hj2, hj3⟩ | ⟨h0, hall⟩
      · left
        exact ⟨by rw [hstep]; exact h1, j, by omega, hj2, hj3⟩
      · right
        refine ⟨by rw [hstep]; exact h0, ?_⟩
        intro j hij hjn
        by_cases hji : j = i
        · subst hji; exact hm
        · exact hall j (by omega) hjn

/-- Membership in the first `n` entries, by index. -/
theorem mem_take_iff_index (ids : List Nat) (n x : Nat) :
    x ∈ ids.take n ↔ ∃ j, j < n ∧ ids[j]? = some x := by
  rw [List.mem_iff_getElem?]
  constructor
  · rintro ⟨j, hj⟩
    rw [List.getElem?_take] at hj
    by_cases hjn : j < n
    · exact ⟨j, hjn, by simpa [hjn] using hj⟩
    · simp [hjn] at hj
  · rintro ⟨j, hjn, hj⟩
    exact ⟨j, by rw [List.getElem?_take]; simpa [hjn] using hj⟩

/-- `start` keeps the worker invariant. -/
theorem loopInvariant_startEvents (device : ratbag_device) (tid : Nat)
    (h : loopInvariant device) : loopInvariant (startEvents device tid).2 := by
  unfold loopInvariant startEvents at *
  cases hl : device.loop <;> simp_all

/-- Signalling the cancellation channel keeps the worker invariant. -/
theorem loopInvariant_signalStop (device : ratbag_device)
    (h : loopInvariant device) : loopInvariant (signalStop device) := by
  unfold loopInvariant signalStop at *
  cases hl : device.loop <;> simp_all

/-- The exit of the worker keeps the worker invariant. -/
theorem loopInvariant_workerExit (device : ratbag_device)
    (h : loopInvariant device) : loopInvariant (workerExit device) := by
  unfold loopInvariant workerExit at *
  cases hl : device.loop <;> simp_all
  match hw : device.workers, h with
  | [_], _ => rfl

/-- Every event keeps the worker invariant. -/
theorem loopInvariant_loopStep (errnos : StartErrnos) (device : ratbag_device)
    (ev : LoopEvent) (h : loopInvariant device) :
    loopInvariant (loopStep errnos device ev) := by
  cases ev with
  | start tid => exact loopInvariant_startEvents device tid h
  | stop => exact loopInvariant_workerExit _ (loopInvariant_signalStop device h)
  | signal => exact loopInvariant_signalStop device h
  | exit => exact loopInvariant_workerExit device h

/-- Every sequence of events keeps the worker invariant. -/
theorem loopInvariant_loopRun (errnos : StartErrnos) (events : List LoopEvent) :
    ∀ device : ratbag_device, loopInvariant device →
      loopInvariant (loopRun errnos device events) := by
  induction events with
  | nil => intro device h; exact h
  | cons ev rest ih =>
    intro device h
    exact ih (loopStep errnos device ev) (loopInvariant_loopStep errnos device ev h)

/-- A freshly opened session satisfies the worker invariant. -/
theorem loopInvariant_openedSession (fd : Int) (ids : List Nat) (bound : Bool)
    (pipe : Int × Int) : loopInvariant (openedSession fd ids bound pipe) := by
  simp [loopInvariant, openedSession]

/-- Under the worker invariant at most one worker exists. -/
theorem loopInvariant_workers_le_one (device : ratbag_device) (h : loopInvariant device) :
    device.workers.length ≤ 1 := by
  unfold loopInvariant at h
  cases hl : device.loop <;> simp_all

/-- A frame of length seven is seven bytes. -/
theorem frame_of_length_seven (f : Frame) (h : f.length = 7) :
    ∃ a0 a1 a2 a3 a4 a5 a6 : Nat, f = [a0, a1, a2, a3, a4, a5, a6] := by
  match f, h with
  | [a0, a1, a2, a3, a4, a5, a6], _ => exact ⟨a0, a1, a2, a3, a4, a5, a6, rfl⟩

/-! ## Theorems: the envelope constants -/

/-- C3: the frame length is determined by the report id and matches the wire
format. Report id `HIDPP_REPORT_ID_SHORT` is 0x10 and selects the length
`HIDPP_SHORT_MESSAGE_LENGTH`, which is 7 = 4 header bytes (report id, device
index, sub-id, address) + 3 parameter bytes; report id `HIDPP_REPORT_ID_LONG`
is 0x11 and selects `HIDPP_LONG_MESSAGE_LENGTH`, which is 20 = 4 header bytes
+ 16 parameter bytes; the two report ids differ. -/
theorem frame_length_matches_wire_format :
    (HIDPP_REPORT_ID_SHORT = 0x10 ∧ HIDPP_SHORT_MESSAGE_LENGTH = 7
      ∧ hidppMessageLength HIDPP_REPORT_ID_SHORT = some HIDPP_SHORT_MESSAGE_LENGTH
      ∧ specShortFrame.reportId = HIDPP_REPORT_ID_SHORT
      ∧ specShortFrame.header = [.reportId, .deviceIndex, .subId, .address]
      ∧ specShortFrame.header.length = 4 ∧ specShortFrame.paramBytes = 3
      ∧ HIDPP_SHORT_MESSAGE_LENGTH = 4 + 3
      ∧ specShortFrame.totalBytes = HIDPP_SHORT_MESSAGE_LENGTH)
    ∧ (HIDPP_REPORT_ID_LONG = 0x11 ∧ HIDPP_LONG_MESSAGE_LENGTH = 20
      ∧ hidppMessageLength HIDPP_REPORT_ID_LONG = some HIDPP_LONG_MESSAGE_LENGTH
      ∧ specLongFrame.reportId = HIDPP_REPORT_ID_LONG
      ∧ specLongFrame.header = [.reportId, .deviceIndex, .subId, .address]
      ∧ specLongFrame.header.length = 4 ∧ specLongFrame.paramBytes = 16
      ∧ HIDPP_LONG_MESSAGE_LENGTH = 4 + 16
      ∧ specLongFrame.totalBytes = HIDPP_LONG_MESSAGE_LENGTH)
    ∧ HIDPP_REPORT_ID_SHORT ≠ HIDPP_REPORT_ID_LONG := by
  decide

/-- C4: the four register access opcodes have the wire values get-short = 0x81,
set-short = 0x80, get-long = 0x83, set-long = 0x82, and for each of the four
operations the response id constant equals the request id constant. -/
theorem register_opcodes_wire_values :
    (HIDPP_GET_REGISTER_REQ = 0x81 ∧ HIDPP_SET_REGISTER_REQ = 0x80
      ∧ HIDPP_GET_LONG_REGISTER_REQ = 0x83 ∧ HIDPP_SET_LONG_REGISTER_REQ = 0x82)
    ∧ (HIDPP_GET_REGISTER_RSP = HIDPP_GET_REGISTER_REQ
      ∧ HIDPP_SET_REGISTER_RSP = HIDPP_SET_REGISTER_REQ
      ∧ HIDPP_GET_LONG_REGISTER_RSP = HIDPP_GET_LONG_REGISTER_REQ
      ∧ HIDPP_SET_LONG_REGISTER_RSP = HIDPP_SET_LONG_REGISTER_REQ) := by
  decide

/-- C8: the device error code taxonomy is success plus exactly twelve named
error codes. The thirteen `HIDPP_ERR_*` constants take the values 0x00 to 0x0C
in the order listed (success, invalid sub-id, invalid address, invalid value,
connect failure, too many devices, already exists, busy, unknown device,
resource error, request unavailable, invalid parameter value, wrong pin code)
and are pairwise distinct; every byte in 0x01..0x0C decodes to exactly one
named error, and 0x00 is the only code that means success. -/
theorem error_code_taxonomy :
    [HIDPP_ERR_SUCCESS, HIDPP_ERR_INVALID_SUBID, HIDPP_ERR_INVALID_ADDRESS,
      HIDPP_ERR_INVALID_VALUE, HIDPP_ERR_CONNECT_FAIL, HIDPP_ERR_TOO_MANY_DEVICES,
      HIDPP_ERR_ALREADY_EXISTS, HIDPP_ERR_BUSY, HIDPP_ERR_UNKNOWN_DEVICE,
      HIDPP_ERR_RESOURCE_ERROR, HIDPP_ERR_REQUEST_UNAVAILABLE,
      HIDPP_ERR_INVALID_PARAM_VALUE, HIDPP_ERR_WRONG_PIN_CODE]
      = [0x00, 0x01, 0x02, 0x03, 0x04, 0x05, 0x06, 0x07, 0x08, 0x09, 0x0A, 0x0B, 0x0C]
    ∧ HidppErr.all.map HidppErr.code
      = [0x00, 0x01, 0x02, 0x03, 0x04, 0x05, 0x06, 0x07, 0x08, 0x09, 0x0A, 0x0B, 0x0C]
    ∧ (HidppErr.all.map HidppErr.code).Nodup
    ∧ (∀ e : HidppErr, e ∈ HidppErr.all)
    ∧ HidppErr.all.length = 13
    ∧ HidppErr.errors.length = 12
    ∧ (∀ e₁ e₂ : HidppErr, e₁.code = e₂.code → e₁ = e₂)
    ∧ (∀ b : Nat, 0x01 ≤ b → b ≤ 0x0C →
        ∃ e : HidppErr, e ≠ .success ∧ hidppErrOfByte b = some e
          ∧ ∀ e₂ : HidppErr, e₂.code = b → e₂ = e)
    ∧ (∀ e : HidppErr, e.code = 0x00 ↔ e = .success)
    ∧ hidppErrOfByte 0x00 = some .success := by
  refine ⟨by decide, by decide, by decide, ?_, by decide, by decide, ?_, ?_, ?_, by decide⟩
  · intro e; cases e <;> decide
  · intro e₁ e₂; cases e₁ <;> cases e₂ <;> decide
  · intro b h1 h2
    interval_cases b
    · exact ⟨.invalidSubId, by decide, by decide, fun e => by cases e <;> decide⟩
    · exact ⟨.invalidAddress, by decide, by decide, fun e => by cases e <;> decide⟩
    · exact ⟨.invalidValue, by decide, by decide, fun e => by cases e <;> decide⟩
    · exact ⟨.connectFail, by decide, by decide, fun e => by cases e <;> decide⟩
    · exact ⟨.tooManyDevices, by decide, by decide, fun e => by cases e <;> decide⟩
    · exact ⟨.alreadyExists, by decide, by decide, fun e => by cases e <;> decide⟩
    · exact ⟨.busy, by decide, by decide, fun e => by cases e <;> decide⟩
    · exact ⟨.unknownDevice, by decide, by decide, fun e => by cases e <;> decide⟩
    · exact ⟨.resourceError, by decide, by decide, fun e => by cases e <;> decide⟩
    · exact ⟨.requestUnavailable, by decide, by decide, fun e => by cases e <;> decide⟩
    · exact ⟨.invalidParamValue, by decide, by decide, fun e => by cases e <;> decide⟩
    · exact ⟨.wrongPinCode, by decide, by decide, fun e => by cases e <;> decide⟩
  · intro e; cases e <;> decide

/-- Witness for C8 at the byte 0x0B: it decodes to `invalidParamValue`, a
named error, and to no other name. -/
theorem error_code_taxonomy_witness :
    ∃ e : HidppErr, e ≠ .success ∧ hidppErrOfByte 0x0B = some e
      ∧ ∀ e₂ : HidppErr, e₂.code = 0x0B → e₂ = e :=
  error_code_taxonomy.2.2.2.2.2.2.2.1 0x0B (by decide) (by decide)

/-- C9: the device-index sentinels have the wire values `HIDPP_RECEIVER_IDX` =
0xFF and `HIDPP_WIRED_DEVICE_IDX` = 0x00, both fit in the one-byte
device-index field, and they differ. -/
theorem device_index_sentinels :
    HIDPP_RECEIVER_IDX = 0xFF ∧ HIDPP_WIRED_DEVICE_IDX = 0x00
    ∧ HIDPP_RECEIVER_IDX < 2 ^ 8 ∧ HIDPP_WIRED_DEVICE_IDX < 2 ^ 8
    ∧ HIDPP_RECEIVER_IDX ≠ HIDPP_WIRED_DEVICE_IDX := by
  decide

/-- C10: the reserved error sub-id `HIDPP_ERROR_MSG` (0x8F) differs from every
register request and response opcode (0x80, 0x81, 0x82, 0x83), so no short
frame is classified by its sub-id byte both as an error frame and as a
register response. -/
theorem error_subid_distinct_from_register_opcodes :
    HIDPP_ERROR_MSG = 0x8F
    ∧ registerRequestOpcodes = [0x80, 0x81, 0x82, 0x83]
    ∧ registerResponseOpcodes = [0x80, 0x81, 0x82, 0x83]
    ∧ HIDPP_ERROR_MSG ∉ registerRequestOpcodes
    ∧ HIDPP_ERROR_MSG ∉ registerResponseOpcodes
    ∧ (∀ subId : Nat, ¬ (isErrorSubId subId = true ∧ isRegisterResponseSubId subId = true))
    ∧ (∀ f : Frame, f.isShort = true →
        ¬ (f.isError = true ∧ f.isRegisterResponse = true)) := by
  have hsub : ∀ subId : Nat,
      ¬ (isErrorSubId subId = true ∧ isRegisterResponseSubId subId = true) := by
    intro subId h
    have h1 : subId = HIDPP_ERROR_MSG := by simpa [isErrorSubId] using h.1
    subst h1
    exact absurd h.2 (by decide)
  refine ⟨by decide, by decide, by decide, by decide, by decide, hsub, ?_⟩
  intro f _ h
  unfold Frame.isError Frame.isRegisterResponse at h
  cases hf : f[2]? with
  | none => simp [hf] at h
  | some subId =>
    simp only [hf] at h
    exact hsub subId h

/-- Witness for C10 at the error frame `[0x10, 0x00, 0x8F, 0x04, 0x0B, 0, 0]`:
it is a short frame, an error frame, and not a register response. -/
theorem error_subid_distinct_from_register_opcodes_witness :
    Frame.isShort [0x10, 0x00, 0x8F, 0x04, 0x0B, 0, 0] = true
    ∧ ¬ (Frame.isError [0x10, 0x00, 0x8F, 0x04, 0x0B, 0, 0] = true
        ∧ Frame.isRegisterResponse [0x10, 0x00, 0x8F, 0x04, 0x0B, 0, 0] = true) :=
  ⟨by decide, error_subid_distinct_from_register_opcodes.2.2.2.2.2.2
    [0x10, 0x00, 0x8F, 0x04, 0x0B, 0, 0] (by decide)⟩

/-! ## Theorems: the session operations -/

/-- C2: the 7-byte frame `[0x10, 0x00, 0x8F, 0x04, 0x0B, 0, 0]` is an error frame
under the envelope constants: byte 0 is `HIDPP_REPORT_ID_SHORT`, byte 1 is
`HIDPP_WIRED_DEVICE_IDX`, byte 2 is `HIDPP_ERROR_MSG`, byte 3 (the failed
sub-id) is 0x04, and byte 4 decodes to `HIDPP_ERR_INVALID_PARAM_VALUE` and to
no other named code. For every short frame whose byte 2 is `HIDPP_ERROR_MSG`, a
request on an open handle that receives it in a buffer with room for a short
frame yields a `ProtocolError` carrying byte 3 as failed sub-id and byte 4 as
error code: not a success and not a `TransportError`, which is what an I/O
failure yields. -/
theorem error_frame_yields_protocol_error :
    (exampleErrorFrame[0]? = some HIDPP_REPORT_ID_SHORT
      ∧ exampleErrorFrame[1]? = some HIDPP_WIRED_DEVICE_IDX
      ∧ exampleErrorFrame[2]? = some HIDPP_ERROR_MSG
      ∧ exampleErrorFrame[3]? = some 0x04
      ∧ exampleErrorFrame[4]? = some HIDPP_ERR_INVALID_PARAM_VALUE
      ∧ hidppErrOfByte 0x0B = some .invalidParamValue
      ∧ (∀ e : HidppErr, e.code = 0x0B → e = .invalidParamValue)
      ∧ exampleErrorFrame.isShort = true
      ∧ exampleErrorFrame.isError = true)
    ∧ (∀ (device : ratbag_device) (reportnum len rtype : Nat) (reqtype : Int) (f : Frame),
        f.isShort = true → f.isError = true →
        0 ≤ device.hidraw.fd → HIDPP_SHORT_MESSAGE_LENGTH ≤ len →
        ∃ failedSubId code : Nat,
          f[3]? = some failedSubId ∧ f[4]? = some code
          ∧ (ratbag_hidraw_raw_request device reportnum len rtype reqtype (.transferred f)).1
              = .error (.protocolError failedSubId code)
          ∧ (∀ (n : Nat) (out : Frame),
              (ratbag_hidraw_raw_request device reportnum len rtype reqtype (.transferred f)).1
                ≠ .ok (n, out))
          ∧ (ratbag_hidraw_raw_request device reportnum len rtype reqtype (.transferred f)).1
              ≠ .error .transportError)
    ∧ (∀ (device : ratbag_device) (reportnum len rtype : Nat) (reqtype : Int),
        (ratbag_hidraw_raw_request device reportnum len rtype reqtype .ioFailure).1
          = .error .transportError) := by
  refine ⟨⟨by decide, by decide, by decide, by decide, by decide, by decide, ?_,
    by decide, by decide⟩, ?_, ?_⟩
  · intro e; cases e <;> decide
  · intro device reportnum len rtype reqtype f hshort herr hfd hlen
    have hlen7 : f.length = 7 := by
      simp [Frame.isShort, HIDPP_SHORT_MESSAGE_LENGTH] at hshort
      exact hshort.1.2
    obtain ⟨a0, a1, a2, a3, a4, a5, a6, rfl⟩ := frame_of_length_seven f hlen7
    have h0 : a0 = HIDPP_REPORT_ID_SHORT := by
      simp [Frame.isShort] at hshort
      exact hshort.2
    have h2 : a2 = HIDPP_ERROR_MSG := by
      simpa [Frame.isError, isErrorSubId] using herr
    have htake : List.take len [a0, a1, a2, a3, a4, a5, a6] = [a0, a1, a2, a3, a4, a5, a6] :=
      List.take_of_length_le (by simpa [HIDPP_SHORT_MESSAGE_LENGTH] using hlen)
    have hres : (ratbag_hidraw_raw_request device reportnum len rtype reqtype
        (.transferred [a0, a1, a2, a3, a4, a5, a6])).1 = .error (.protocolError a3 a4) := by
      simp only [ratbag_hidraw_raw_request, if_neg (not_lt.mpr hfd), htake, errorFrameFields]
      simp [h0, h2]
    refine ⟨a3, a4, rfl, rfl, hres, ?_, ?_⟩
    · intro n out; rw [hres]; simp
    · rw [hres]; simp
  · intro device reportnum len rtype reqtype
    unfold ratbag_hidraw_raw_request
    split <;> rfl

/-- Witness for C2: a request on an open session whose exchange transfers
`[0x10, 0x00, 0x8F, 0x04, 0x0B, 0, 0]` yields `ProtocolError` with failed
sub-id 0x04 and code 0x0B. -/
theorem error_frame_yields_protocol_error_witness :
    ∃ failedSubId code : Nat,
      exampleErrorFrame[3]? = some failedSubId ∧ exampleErrorFrame[4]? = some code
      ∧ (ratbag_hidraw_raw_request (openedSession 3 [0x10, 0x11] true (4, 5))
            HIDPP_REPORT_ID_SHORT 7 HID_FEATURE_REPORT 1 (.transferred exampleErrorFrame)).1
          = .error (.protocolError failedSubId code)
      ∧ (∀ (n : Nat) (out : Frame),
          (ratbag_hidraw_raw_request (openedSession 3 [0x10, 0x11] true (4, 5))
            HIDPP_REPORT_ID_SHORT 7 HID_FEATURE_REPORT 1 (.transferred exampleErrorFrame)).1
            ≠ .ok (n, out))
      ∧ (ratbag_hidraw_raw_request (openedSession 3 [0x10, 0x11] true (4, 5))
            HIDPP_REPORT_ID_SHORT 7 HID_FEATURE_REPORT 1 (.transferred exampleErrorFrame)).1
          ≠ .error .transportError :=
  error_frame_yields_protocol_error.2.1 (openedSession 3 [0x10, 0x11] true (4, 5))
    HIDPP_REPORT_ID_SHORT 7 HID_FEATURE_REPORT 1 exampleErrorFrame
    (by decide) (by decide) (by decide) (by decide)

/-- C5: for every session and report id, `ratbag_hidraw_has_report` returns 1 if
the id is one of the `num_report_ids` identifiers stored in `report_ids` and 0
otherwise, no other value; it leaves the session unchanged, so repeating the
query gives the same answer. On a freshly opened session the identifiers are
those enumerated at open. -/
theorem has_report_is_registry_membership (device : ratbag_device) (report_id : Nat) :
    ((ratbag_hidraw_has_report device report_id).1 = 1
        ∨ (ratbag_hidraw_has_report device report_id).1 = 0)
    ∧ ((ratbag_hidraw_has_report device report_id).1 = 1
        ↔ report_id ∈ device.hidraw.registry)
    ∧ ((ratbag_hidraw_has_report device report_id).1 = 0
        ↔ report_id ∉ device.hidraw.registry)
    ∧ (ratbag_hidraw_has_report device report_id).2 = device
    ∧ ratbag_hidraw_has_report (ratbag_hidraw_has_report device report_id).2 report_id
        = ratbag_hidraw_has_report device report_id
    ∧ (∀ (fd : Int) (ids : List Nat) (bound : Bool) (pipe : Int × Int),
        (ratbag_hidraw_has_report (openedSession fd ids bound pipe) report_id).1 = 1
          ↔ report_id ∈ ids) := by
  have key : ∀ d : ratbag_device,
      ((ratbag_hidraw_has_report d report_id).1 = 1 ∧ report_id ∈ d.hidraw.registry)
      ∨ ((ratbag_hidraw_has_report d report_id).1 = 0 ∧ report_id ∉ d.hidraw.registry) := by
    intro d
    unfold ratbag_hidraw.registry
    rw [mem_take_iff_index]
    rcases has_report_scan_cases d.hidraw.report_ids d.hidraw.num_report_ids report_id
        _ 0 rfl with ⟨h1, j, _, hj2, hj3⟩ | ⟨h0, hall⟩
    · left
      exact ⟨h1, j, hj2, hj3⟩
    · right
      refine ⟨h0, ?_⟩
      rintro ⟨j, hj2, hj3⟩
      exact hall j (Nat.zero_le j) hj2 hj3
  have iff1 : ∀ d : ratbag_device,
      (ratbag_hidraw_has_report d report_id).1 = 1 ↔ report_id ∈ d.hidraw.registry := by
    intro d
    rcases key d with ⟨h1, hm⟩ | ⟨h0, hm⟩
    · exact ⟨fun _ => hm, fun _ => h1⟩
    · exact ⟨fun h => by rw [h0] at h; exact absurd h (by decide), fun h => absurd h hm⟩
  refine ⟨?_, iff1 device, ?_, rfl, rfl, ?_⟩
  · rcases key device with ⟨h1, _⟩ | ⟨h0, _⟩
    · exact Or.inl h1
    · exact Or.inr h0
  · rcases key device with ⟨h1, hm⟩ | ⟨h0, hm⟩
    · exact ⟨fun h => by rw [h1] at h; exact absurd h (by decide), fun h => absurd hm h⟩
    · exact ⟨fun _ => hm, fun _ => h0⟩
  · intro fd ids bound pipe
    rw [iff1]
    simp [ratbag_hidraw.registry, openedSession]

/-- C6: in the event-loop state machine, `ratbag_hidraw_start_events` on a
session whose loop is `Running` fails with `AlreadyStarted`, a negative errno,
and leaves the session as it was: still `Running`, with the same single
worker. In every state reachable from a freshly opened session at most one
worker exists. `start` succeeds exactly from `NotStarted` or `Stopped`, and
then the loop is `Running` with the new worker added. -/
theorem start_events_single_worker (errnos : StartErrnos) (herr : errnos.positive) :
    (∀ (device : ratbag_device) (tid : Nat), device.loop = .running →
        (startEvents device tid).1 = .error .alreadyStarted
        ∧ (ratbag_hidraw_start_events errnos device tid).1 = -(errnos.alreadyStarted : Int)
        ∧ (ratbag_hidraw_start_events errnos device tid).1 < 0
        ∧ (ratbag_hidraw_start_events errnos device tid).2 = device)
    ∧ (∀ (fd : Int) (ids : List Nat) (bound : Bool) (pipe : Int × Int)
        (events : List LoopEvent),
        (loopRun errnos (openedSession fd ids bound pipe) events).workers.length ≤ 1)
    ∧ (∀ (fd : Int) (ids : List Nat) (bound : Bool) (pipe : Int × Int)
        (events : List LoopEvent) (tid : Nat),
        (loopRun errnos (openedSession fd ids bound pipe) events).loop = .running →
        ∃ w : Nat,
          (loopRun errnos (openedSession fd ids bound pipe) events).workers = [w]
          ∧ (ratbag_hidraw_start_events errnos
              (loopRun errnos (openedSession fd ids bound pipe) events) tid).2.workers = [w]
          ∧ (ratbag_hidraw_start_events errnos
              (loopRun errnos (openedSession fd ids bound pipe) events) tid).2.loop
              = .running)
    ∧ (∀ (device : ratbag_device) (tid : Nat),
        (ratbag_hidraw_start_events errnos device tid).1 = 0
          ↔ (device.loop = .notStarted ∨ device.loop = .stopped))
    ∧ (∀ (device : ratbag_device) (tid : Nat),
        (device.loop = .notStarted ∨ device.loop = .stopped) →
        (ratbag_hidraw_start_events errnos device tid).2.loop = .running
        ∧ (ratbag_hidraw_start_events errnos device tid).2.workers = tid :: device.workers) := by
  obtain ⟨hpos1, hpos2⟩ := herr
  have hrun : ∀ (device : ratbag_device) (tid : Nat), device.loop = .running →
      (startEvents device tid).1 = .error .alreadyStarted
      ∧ (ratbag_hidraw_start_events errnos device tid).1 = -(errnos.alreadyStarted : Int)
      ∧ (ratbag_hidraw_start_events errnos device tid).1 < 0
      ∧ (ratbag_hidraw_start_events errnos device tid).2 = device := by
    intro device tid hl
    have h1 : startEvents device tid = (.error .alreadyStarted, device) := by
      simp [startEvents, hl]
    refine ⟨by rw [h1], ?_, ?_, ?_⟩
    · simp [ratbag_hidraw_start_events, h1, startReturnCode]
    · simp [ratbag_hidraw_start_events, h1, startReturnCode]
      exact hpos1
    · simp [ratbag_hidraw_start_events, h1]
  refine ⟨hrun, ?_, ?_, ?_, ?_⟩
  · intro fd ids bound pipe events
    exact loopInvariant_workers_le_one _
      (loopInvariant_loopRun errnos events _ (loopInvariant_openedSession fd ids bound pipe))
  · intro fd ids bound pipe events tid hl
    have hinv := loopInvariant_loopRun errnos events _
      (loopInvariant_openedSession fd ids bound pipe)
    have hlen : (loopRun errnos (openedSession fd ids bound pipe) events).workers.length = 1 := by
      unfold loopInvariant at hinv
      rw [hl] at hinv
      exact hinv
    obtain ⟨w, hw⟩ := List.length_eq_one.mp hlen
    have hsame := (hrun _ tid hl).2.2.2
    exact ⟨w, hw, by rw [hsame]; exact hw, by rw [hsame]; exact hl⟩
  · intro device tid
    cases hl : device.loop <;>
      simp [ratbag_hidraw_start_events, startEvents, startReturnCode, hl] <;> omega
  · intro device tid h
    rcases h with hl | hl <;> simp [ratbag_hidraw_start_events, startEvents, hl]

/-- Witness for C6 with `EALREADY` = 114 and `EBUSY` = 16: a second `start` on
the session started with worker 7 returns -114 and changes nothing. -/
theorem start_events_single_worker_witness :
    StartErrnos.positive ⟨114, 16⟩
    ∧ (ratbag_hidraw_start_events ⟨114, 16⟩
        (ratbag_hidraw_start_events ⟨114, 16⟩ (openedSession 3 [0x10, 0x11] true (4, 5)) 7).2 8).1
        < 0 :=
  ⟨by decide,
    ((start_events_single_worker ⟨114, 16⟩ (by decide)).1
      (ratbag_hidraw_start_events ⟨114, 16⟩ (openedSession 3 [0x10, 0x11] true (4, 5)) 7).2 8
      (by decide)).2.2.1⟩

/-- C7, as amended: for every successful `ratbag_hidraw_read_input_report` call
on a session that has a driver `raw_event` callback bound, `propagate` set
causes exactly one callback invocation, with the same bytes and length that
are returned to the caller; with `propagate` clear the call makes no
invocation, whether or not a callback is bound, and leaves the session as it
was. -/
theorem read_input_report_propagates_once (device : ratbag_device) (incoming : ReadEvent)
    (len : Nat) (propagate : Int) (rc : Nat) (buf : Frame)
    (hok : (ratbag_hidraw_read_input_report device incoming len propagate).1 = .ok (rc, buf)) :
    (propagate ≠ 0 → device.raw_event_bound = true →
        newCalls device (ratbag_hidraw_read_input_report device incoming len propagate).2
          = [(buf, rc)]
        ∧ (ratbag_hidraw_read_input_report device incoming len propagate).2.raw_event_calls
          = device.raw_event_calls ++ [(buf, rc)])
    ∧ (propagate = 0 →
        newCalls device (ratbag_hidraw_read_input_report device incoming len propagate).2 = []
        ∧ (ratbag_hidraw_read_input_report device incoming len propagate).2 = device)
    ∧ rc = buf.length := by
  cases incoming with
  | ioFailure => simp [ratbag_hidraw_read_input_report] at hok
  | interrupted => simp [ratbag_hidraw_read_input_report] at hok
  | report bytes =>
    have hval : ratbag_hidraw_read_input_report device (.report bytes) len propagate
        = (.ok ((bytes.take len).length, bytes.take len),
            if propagate ≠ 0 then
              (ratbag_hidraw_propagate_report device (bytes.take len) (bytes.take len).length).2
            else device) := by
      simp only [ratbag_hidraw_read_input_report]
      split <;> rfl
    rw [hval] at hok ⊢
    simp only [Except.ok.injEq, Prod.mk.injEq] at hok
    obtain ⟨hrc, hbuf⟩ := hok
    subst hbuf
    subst hrc
    refine ⟨fun hp hb => ?_, fun hp => ?_, rfl⟩
    · have hcalls : (ratbag_hidraw_propagate_report device (List.take len bytes)
          (List.take len bytes).length).2.raw_event_calls
          = device.raw_event_calls ++ [(List.take len bytes, (List.take len bytes).length)] := by
        simp [ratbag_hidraw_propagate_report, hb]
      rw [if_pos hp]
      exact ⟨by rw [newCalls, hcalls, List.drop_left], hcalls⟩
    · rw [if_neg (not_not.mpr hp)]
      exact ⟨by simp [newCalls], rfl⟩

/-- Witness for C7: a session with a callback bound reads the 7-byte report
`[0x10, 0x00, 0x81, 0x00, 1, 2, 3]` into a 20-byte buffer with `propagate` = 1;
the callback is invoked once, with those bytes and length 7. -/
theorem read_input_report_propagates_once_witness :
    (ratbag_hidraw_read_input_report (openedSession 3 [0x10, 0x11] true (4, 5))
        (.report [0x10, 0x00, 0x81, 0x00, 1, 2, 3]) 20 1).1
      = .ok (7, [0x10, 0x00, 0x81, 0x00, 1, 2, 3])
    ∧ newCalls (openedSession 3 [0x10, 0x11] true (4, 5))
        (ratbag_hidraw_read_input_report (openedSession 3 [0x10, 0x11] true (4, 5))
          (.report [0x10, 0x00, 0x81, 0x00, 1, 2, 3]) 20 1).2
      = [([0x10, 0x00, 0x81, 0x00, 1, 2, 3], 7)] :=
  ⟨rfl,
    ((read_input_report_propagates_once (openedSession 3 [0x10, 0x11] true (4, 5))
      (.report [0x10, 0x00, 0x81, 0x00, 1, 2, 3]) 20 1 7 [0x10, 0x00, 0x81, 0x00, 1, 2, 3]
      rfl).1 (by decide) rfl).1⟩

/-- Counterexample to C7 as stated: on a session with no `raw_event` callback
bound, reading the 7-byte report `[0x10, 0x00, 0x81, 0x00, 1, 2, 3]` into a
20-byte buffer with `propagate` = 1 succeeds, returning those 7 bytes, and
makes no callback invocation; so it is not true that every successful call
with `propagate` set makes exactly one invocation with the returned bytes. -/
theorem read_input_report_unbound_makes_no_invocation :
    ((ratbag_hidraw_read_input_report (openedSession 3 [0x10, 0x11] false (4, 5))
        (.report [0x10, 0x00, 0x81, 0x00, 1, 2, 3]) 20 1).1
      = .ok (7, [0x10, 0x00, 0x81, 0x00, 1, 2, 3])
    ∧ newCalls (openedSession 3 [0x10, 0x11] false (4, 5))
        (ratbag_hidraw_read_input_report (openedSession 3 [0x10, 0x11] false (4, 5))
          (.report [0x10, 0x00, 0x81, 0x00, 1, 2, 3]) 20 1).2
      = [])
    ∧ ¬ (∀ (device : ratbag_device) (incoming : ReadEvent) (len : Nat) (propagate : Int)
          (rc : Nat) (buf : Frame),
          (ratbag_hidraw_read_input_report device incoming len propagate).1 = .ok (rc, buf) →
          propagate ≠ 0 →
          newCalls device (ratbag_hidraw_read_input_report device incoming len propagate).2
            = [(buf, rc)]) := by
  refine ⟨⟨rfl, rfl⟩, ?_⟩
  intro hall
  have h := hall (openedSession 3 [0x10, 0x11] false (4, 5))
    (.report [0x10, 0x00, 0x81, 0x00, 1, 2, 3]) 20 1 7 [0x10, 0x00, 0x81, 0x00, 1, 2, 3]
    rfl (by decide)
  have hnil : newCalls (openedSession 3 [0x10, 0x11] false (4, 5))
      (ratbag_hidraw_read_input_report (openedSession 3 [0x10, 0x11] false (4, 5))
        (.report [0x10, 0x00, 0x81, 0x00, 1, 2, 3]) 20 1).2 = [] := rfl
  rw [hnil] at h
  exact List.noConfusion h

end Ratbag
